import Mathlib

/-!
Shallow embedding of `plot_results.py` from the Automated-Molecular-Docking-Pipeline
repository: the docking-score summarization, threshold classification and
command-line handling of the histogram/bar-chart plotting script.

Conventions of the embedding:
* Python floats are modelled as rationals (`ℚ`); all arithmetic in the script is
  elementary (min, max, mean, division), so the exact-field model is faithful to
  the relations the statistics satisfy.
* The pandas DataFrame produced by `pd.read_csv` is modelled as a `Table`: a list
  of typed rows plus flags recording which of the three required columns
  (`Ligand_ID`, `Mode`, `Affinity_(kcal/mol)`) are present.  Accessing a missing
  column raises a `KeyError`, which the surrounding `try/except` catches.
* A raised-and-caught exception is the `Outcome.errorCaught` value (the script
  prints "Error generating plot: ..." and returns normally).
* `pd.read_csv` itself failing (missing file, unreadable table) is modelled by
  passing `none` instead of `some table` to the plotting entry point.
* `float(sys.argv[3])` is an external parse; its fallible result is passed in as
  an `Option ℚ` (`none` models the `ValueError` branch of lines 139-142).
* pandas `sort_values('Affinity_(kcal/mol)', ascending=True)` (an external
  library sort with no documented tiebreak for the default kind) is modelled by
  `List.mergeSort` on the affinity key.
-/

/-- One row of the docking-results CSV: columns `Ligand_ID`, `Mode` (pose rank,
1 = best) and `Affinity_(kcal/mol)`. -/
structure DockingRecord where
  ligand_ID : String
  mode : Int
  affinity : ℚ
deriving Repr, DecidableEq

/-- The DataFrame returned by `pd.read_csv`: the data rows, together with flags
recording whether the `Mode`, `Affinity_(kcal/mol)` and `Ligand_ID` columns are
present in the header (a missing column raises `KeyError` on access). -/
structure Table where
  hasMode : Bool
  hasAffinity : Bool
  hasLigandID : Bool
  rows : List DockingRecord
deriving Repr, DecidableEq

/-- The statistics computed at lines 43-49 of `plot_results.py`
(`mean_score`, `min_score`, `max_score`, `count`, `hit_count`,
`hit_percentage`). -/
structure SummaryStats where
  mean_score : ℚ
  min_score : ℚ
  max_score : ℚ
  count : Nat
  hit_count : Nat
  hit_percentage : ℚ
deriving Repr, DecidableEq

/-- `scores.min()` (pandas Series minimum).  The script only evaluates it on a
non-empty series; the `[]` case is an arbitrary default never reached from
`plot_histogram`. -/
def seriesMin : List ℚ → ℚ
  | [] => 0
  | [x] => x
  | x :: y :: t => min x (seriesMin (y :: t))

/-- `scores.max()` (pandas Series maximum), same conventions as `seriesMin`. -/
def seriesMax : List ℚ → ℚ
  | [] => 0
  | [x] => x
  | x :: y :: t => max x (seriesMax (y :: t))

/-- `scores.mean()`: arithmetic mean of the series. -/
def seriesMean (l : List ℚ) : ℚ := l.sum / (l.length : ℚ)

/-- Line 47: `hits = scores[scores <= threshold]` — boolean-mask selection of the
scores at or below the threshold. -/
def hitsOf (scores : List ℚ) (threshold : ℚ) : List ℚ :=
  scores.filter (fun x => decide (x ≤ threshold))

/-- Lines 43-49: the statistics block of `plot_histogram`, computed from the
Mode-1 scores series and the threshold.  `hit_percentage` is
`(hit_count / count) * 100` exactly as written in the source. -/
def computeStats (scores : List ℚ) (threshold : ℚ) : SummaryStats :=
  { mean_score := seriesMean scores
    min_score := seriesMin scores
    max_score := seriesMax scores
    count := scores.length
    hit_count := (hitsOf scores threshold).length
    hit_percentage := ((hitsOf scores threshold).length : ℚ) / (scores.length : ℚ) * 100 }

/-- Line 19: `best_poses = df[df['Mode'] == 1]` — filter the rows to the
best-pose records. -/
def best_poses (rows : List DockingRecord) : List DockingRecord :=
  rows.filter (fun r => r.mode == 1)

/-- Line 25 / 97: extracting the `Affinity_(kcal/mol)` column of a row list. -/
def scoresOf (l : List DockingRecord) : List ℚ := l.map (·.affinity)

/-- Line 93: `best_poses.sort_values('Affinity_(kcal/mol)', ascending=True)` —
sort the best-pose rows by affinity, most negative first (the library sort's
tiebreak for equal keys is unspecified; mergeSort is one admissible
realization). -/
def best_poses_sorted (l : List DockingRecord) : List DockingRecord :=
  l.mergeSort (fun a b => decide (a.affinity ≤ b.affinity))

/-- The observable outcome of one `plot_histogram` call. -/
inductive Outcome where
  /-- Lines 14-16: prints "WARNING: No data in CSV to plot." and returns. -/
  | noDataWarning : Outcome
  /-- Lines 21-23: prints "WARNING: No Mode 1 poses found." and returns. -/
  | noMode1Warning : Outcome
  /-- Lines 128-129: an exception was raised, caught, and reported as
  "Error generating plot: ..."; the function then returns normally. -/
  | errorCaught : Outcome
  /-- Both images were produced; carries the statistics shown on the histogram
  and the sorted rows driving the bar chart. -/
  | success (stats : SummaryStats) (barData : List DockingRecord) : Outcome
deriving Repr, DecidableEq

/-- `plot_histogram(csv_file, output_file, threshold)` on an already-parsed
table, lines 8-129.  Control flow in source order: the emptiness check
(line 14) precedes every column access; the `Mode` column is read at line 19,
`Affinity_(kcal/mol)` at line 25, `Ligand_ID` at line 96; any `KeyError` lands
in the `except` clause. -/
def plot_histogram (t : Table) (threshold : ℚ) : Outcome :=
  if t.rows = [] then .noDataWarning
  else if t.hasMode = false then .errorCaught
  else if best_poses t.rows = [] then .noMode1Warning
  else if t.hasAffinity = false then .errorCaught
  else if t.hasLigandID = false then .errorCaught
  else .success (computeStats (scoresOf (best_poses t.rows)) threshold)
      (best_poses_sorted (best_poses t.rows))

/-- `plot_histogram` including the `pd.read_csv` call of line 11: `none` models
the read itself raising (missing file, unreadable table), which the same
`try/except` catches. -/
def plot_histogram_entry (readResult : Option Table) (threshold : ℚ) : Outcome :=
  match readResult with
  | none => .errorCaught
  | some t => plot_histogram t threshold

/-- What the `__main__` block decides to do with the argument vector. -/
inductive MainStep where
  /-- Lines 132-134: usage message, then `sys.exit(1)`. -/
  | usageExit : MainStep
  /-- Line 144: call `plot_histogram(csv_path, img_path, threshold_val)`. -/
  | run (csv_path img_path : String) (threshold_val : ℚ) : MainStep
deriving Repr, DecidableEq

/-- Lines 131-144: the `__main__` argument handling.  `argv` is the full
`sys.argv` (script name at index 0); `parsedThr` is the result of the external
`float(sys.argv[3])` call, `none` when it raises `ValueError`, in which case
`threshold_val = -8.0`. -/
def mainArgs (argv : List String) (parsedThr : Option ℚ) : MainStep :=
  if argv.length < 4 then .usageExit
  else .run (argv.getD 1 "") (argv.getD 2 "") (parsedThr.getD (-8))

/-- The process exit status produced by each `MainStep`: `sys.exit(1)` on the
usage branch; otherwise `plot_histogram` catches every exception, `__main__`
falls off the end, and the interpreter exits with status 0. -/
def mainExit : MainStep → Nat
  | .usageExit => 1
  | .run _ _ _ => 0

/-- A whole run of `plot_results.py`: the exit status, paired with the
`plot_histogram` outcome when the script got past the argument check. -/
def scriptRun (argv : List String) (parsedThr : Option ℚ) (readResult : Option Table) :
    Nat × Option Outcome :=
  match mainArgs argv parsedThr with
  | .usageExit => (1, none)
  | .run _ _ thr => (0, some (plot_histogram_entry readResult thr))

/-! ### Helper lemmas about the series aggregates -/

theorem seriesMin_cons_cons (x y : ℚ) (t : List ℚ) :
    seriesMin (x :: y :: t) = min x (seriesMin (y :: t)) := rfl

theorem seriesMin_le (l : List ℚ) : ∀ x ∈ l, seriesMin l ≤ x := by
  induction l with
  | nil => intro x hx; cases hx
  | cons a t ih =>
    intro x hx
    rcases List.mem_cons.mp hx with rfl | hxt
    · cases t with
      | nil => simp [seriesMin]
      | cons b s => rw [seriesMin_cons_cons]; exact min_le_left _ _
    · cases t with
      | nil => cases hxt
      | cons b s =>
        rw [seriesMin_cons_cons]
        exact le_trans (min_le_right _ _) (ih x hxt)

theorem seriesMin_mem (l : List ℚ) (h : l ≠ []) : seriesMin l ∈ l := by
  induction l with
  | nil => exact absurd rfl h
  | cons a t ih =>
    cases t with
    | nil => simp [seriesMin]
    | cons b s =>
      have ht : seriesMin (b :: s) ∈ b :: s := ih (by simp)
      rw [seriesMin_cons_cons]
      rcases le_total a (seriesMin (b :: s)) with hle | hle
      · simp [min_eq_left hle]
      · rw [min_eq_right hle]
        exact List.mem_cons_of_mem _ ht

/-! ### The claims -/

/-- C1: for every sequence of docking records and every threshold, a Mode-1
record is selected as a hit exactly when its affinity is ≤ the threshold
(non-strict: equality counts as a hit), and `hit_count` is the number of Mode-1
records satisfying that condition. -/
theorem c1_hit_classification (rows : List DockingRecord) (threshold : ℚ) :
    (∀ x : ℚ, x ∈ hitsOf (scoresOf (best_poses rows)) threshold ↔
        x ∈ scoresOf (best_poses rows) ∧ x ≤ threshold) ∧
    hitsOf (scoresOf (best_poses rows)) threshold
      = scoresOf ((best_poses rows).filter (fun r => decide (r.affinity ≤ threshold))) ∧
    (computeStats (scoresOf (best_poses rows)) threshold).hit_count
      = (best_poses rows).countP (fun r => decide (r.affinity ≤ threshold)) := by
  refine ⟨fun x => ?_, ?_, ?_⟩
  · simp [hitsOf, List.mem_filter]
  · simp only [hitsOf, scoresOf, List.filter_map]
    rfl
  · simp only [computeStats, hitsOf, scoresOf, List.countP_eq_length_filter,
      List.filter_map, List.length_map]
    rfl

/-- C2: for every non-empty set of Mode-1 records, the computed hit percentage
equals exactly 100 × hit_count / count with count > 0; the count-zero case
never reaches the statistics block, being diverted to the warning outcome. -/
theorem c2_hit_rate (rows : List DockingRecord) (threshold : ℚ)
    (h : best_poses rows ≠ []) :
    0 < (computeStats (scoresOf (best_poses rows)) threshold).count ∧
    (computeStats (scoresOf (best_poses rows)) threshold).hit_percentage
      = 100 * ((computeStats (scoresOf (best_poses rows)) threshold).hit_count : ℚ)
          / ((computeStats (scoresOf (best_poses rows)) threshold).count : ℚ) := by
  constructor
  · simp only [computeStats, scoresOf, List.length_map]
    exact List.length_pos.mpr h
  · simp only [computeStats]
    rw [div_mul_eq_mul_div, mul_comm]

theorem c2_hit_rate_witness :
    best_poses [⟨"L1", 1, -46/5⟩, ⟨"L2", 1, -15/2⟩, ⟨"L3", 1, -8⟩] ≠ [] ∧
    (0 < (computeStats (scoresOf (best_poses
        [⟨"L1", 1, -46/5⟩, ⟨"L2", 1, -15/2⟩, ⟨"L3", 1, -8⟩])) (-8)).count ∧
      (computeStats (scoresOf (best_poses
        [⟨"L1", 1, -46/5⟩, ⟨"L2", 1, -15/2⟩, ⟨"L3", 1, -8⟩])) (-8)).hit_percentage
        = 100 * ((computeStats (scoresOf (best_poses
            [⟨"L1", 1, -46/5⟩, ⟨"L2", 1, -15/2⟩, ⟨"L3", 1, -8⟩])) (-8)).hit_count : ℚ)
            / ((computeStats (scoresOf (best_poses
            [⟨"L1", 1, -46/5⟩, ⟨"L2", 1, -15/2⟩, ⟨"L3", 1, -8⟩])) (-8)).count : ℚ)) :=
  ⟨by decide, c2_hit_rate _ (-8) (by decide)⟩

/-- C3: for every non-empty set of Mode-1 records, `min_score` is the minimum
of their affinities: it occurs among them and is ≤ every one of them (the most
negative value, not the maximum). -/
theorem c3_best_score_is_min (rows : List DockingRecord) (threshold : ℚ)
    (h : best_poses rows ≠ []) :
    (computeStats (scoresOf (best_poses rows)) threshold).min_score
        ∈ scoresOf (best_poses rows) ∧
    ∀ x ∈ scoresOf (best_poses rows),
      (computeStats (scoresOf (best_poses rows)) threshold).min_score ≤ x := by
  have hne : scoresOf (best_poses rows) ≠ [] := by
    simp only [scoresOf, ne_eq, List.map_eq_nil_iff]
    exact h
  exact ⟨seriesMin_mem _ hne, seriesMin_le _⟩

theorem c3_best_score_is_min_witness :
    best_poses [⟨"L1", 1, -46/5⟩, ⟨"L2", 1, -15/2⟩] ≠ [] ∧
    ((computeStats (scoresOf (best_poses [⟨"L1", 1, -46/5⟩, ⟨"L2", 1, -15/2⟩])) (-8)).min_score
        ∈ scoresOf (best_poses [⟨"L1", 1, -46/5⟩, ⟨"L2", 1, -15/2⟩]) ∧
      ∀ x ∈ scoresOf (best_poses [⟨"L1", 1, -46/5⟩, ⟨"L2", 1, -15/2⟩]),
        (computeStats (scoresOf (best_poses
          [⟨"L1", 1, -46/5⟩, ⟨"L2", 1, -15/2⟩])) (-8)).min_score ≤ x) :=
  ⟨by decide, c3_best_score_is_min _ (-8) (by decide)⟩

/-- The two warning outcomes: the "no data" family (either emptiness warning),
as opposed to an exception or a successful plot. -/
def Outcome.isNoData : Outcome → Bool
  | .noDataWarning => true
  | .noMode1Warning => true
  | _ => false

/-- C4: for every table whose Mode-1 filtered subsequence is empty (e.g. only
Mode = 2 rows), the summarizer yields a "no data" warning outcome and skips
plot generation; it neither raises nor divides by zero. -/
theorem c4_empty_mode1_no_data (t : Table) (threshold : ℚ)
    (hm : t.hasMode = true) (h : best_poses t.rows = []) :
    (plot_histogram t threshold).isNoData = true ∧
    plot_histogram t threshold ≠ .errorCaught ∧
    ∀ s l, plot_histogram t threshold ≠ .success s l := by
  by_cases hr : t.rows = []
  · refine ⟨?_, ?_, ?_⟩ <;> simp [plot_histogram, hr, Outcome.isNoData]
  · refine ⟨?_, ?_, ?_⟩ <;> simp [plot_histogram, hr, hm, h, Outcome.isNoData]

theorem c4_empty_mode1_no_data_witness :
    (Table.mk true true true [⟨"L1", 2, -46/5⟩]).hasMode = true ∧
    best_poses (Table.mk true true true [⟨"L1", 2, -46/5⟩]).rows = [] ∧
    ((plot_histogram (Table.mk true true true [⟨"L1", 2, -46/5⟩]) (-8)).isNoData = true ∧
      plot_histogram (Table.mk true true true [⟨"L1", 2, -46/5⟩]) (-8) ≠ .errorCaught ∧
      ∀ s l, plot_histogram (Table.mk true true true [⟨"L1", 2, -46/5⟩]) (-8) ≠ .success s l) :=
  ⟨rfl, by decide, c4_empty_mode1_no_data _ (-8) rfl (by decide)⟩

/-- C5: adding records whose Mode is not 1 changes none of the computed
statistics — the summary depends only on the Mode-1 subsequence. -/
theorem c5_mode_filter_invariance (rows extra : List DockingRecord) (threshold : ℚ)
    (h : ∀ r ∈ extra, r.mode ≠ 1) :
    computeStats (scoresOf (best_poses (rows ++ extra))) threshold
      = computeStats (scoresOf (best_poses rows)) threshold := by
  have hextra : best_poses extra = [] := by
    rw [best_poses, List.filter_eq_nil_iff]
    intro r hr
    simpa using h r hr
  rw [best_poses, List.filter_append, ← best_poses, ← best_poses, hextra,
    List.append_nil]

theorem c5_mode_filter_invariance_witness :
    (∀ r ∈ ([⟨"L1", 2, -46/5⟩, ⟨"L2", 3, -15/2⟩] : List DockingRecord), r.mode ≠ 1) ∧
    computeStats (scoresOf (best_poses
        ([⟨"L1", 1, -46/5⟩, ⟨"L2", 1, -15/2⟩] ++ [⟨"L1", 2, -46/5⟩, ⟨"L2", 3, -15/2⟩]))) (-8)
      = computeStats (scoresOf (best_poses [⟨"L1", 1, -46/5⟩, ⟨"L2", 1, -15/2⟩])) (-8) :=
  ⟨by decide, c5_mode_filter_invariance _ _ (-8) (by decide)⟩

/-- C6: the rows produced for the bar chart are a permutation of the Mode-1
rows, arranged in ascending order of affinity (most negative first), affinity
being the sole sort key. -/
theorem c6_bar_chart_sorted (rows : List DockingRecord) :
    (best_poses_sorted (best_poses rows)).Perm (best_poses rows) ∧
    List.Pairwise (fun a b => a.affinity ≤ b.affinity)
      (best_poses_sorted (best_poses rows)) := by
  constructor
  · exact List.mergeSort_perm _ _
  · have hs := @List.sorted_mergeSort DockingRecord
      (fun a b : DockingRecord => decide (a.affinity ≤ b.affinity))
      (fun a b c hab hbc => by
        simp only [decide_eq_true_eq] at *
        exact le_trans hab hbc)
      (fun a b => by
        simp only [Bool.or_eq_true, decide_eq_true_eq]
        exact le_total _ _)
      (best_poses rows)
    exact hs.imp (fun h => by simpa using h)

/-- C7 counterexample: a missing input file (the `pd.read_csv` call raises) is
a fatal input condition; the error is reported ("Error generating plot: ...")
but the process exits with status 0, not a non-zero status — the `except`
clause swallows the exception and `__main__` falls off the end. -/
theorem c7_fatal_exit_counterexample :
    scriptRun ["plot_results.py", "missing.csv", "out.png", "-8.0"] (some (-8)) none
      = (0, some .errorCaught) := rfl

/-- C7 (amended): for every fatal input condition — a read failure (missing
file, unreadable table), a table with rows but no `Mode` column, or a table
whose Mode-1 rows are present but whose `Affinity_(kcal/mol)` or `Ligand_ID`
column is missing — the error is reported to the user as the caught-exception
outcome, but the process exits with status 0; the only non-zero exit is the
usage error. -/
theorem c7_fatal_reported_exit_zero (argv : List String) (p : Option ℚ)
    (r : Option Table) (h4 : 4 ≤ argv.length)
    (hfatal : r = none ∨ ∃ t, r = some t ∧ t.rows ≠ [] ∧
      (t.hasMode = false ∨
        (best_poses t.rows ≠ [] ∧ (t.hasAffinity = false ∨ t.hasLigandID = false)))) :
    (scriptRun argv p r).2 = some .errorCaught ∧ (scriptRun argv p r).1 = 0 := by
  have hrun : mainArgs argv p = .run (argv.getD 1 "") (argv.getD 2 "") (p.getD (-8)) := by
    rw [mainArgs, if_neg (by omega)]
  have hout : plot_histogram_entry r (p.getD (-8)) = .errorCaught := by
    rcases hfatal with rfl | ⟨t, rfl, hrows, hcol⟩
    · rfl
    · rcases hcol with hm | ⟨hbp, hc⟩
      · simp [plot_histogram_entry, plot_histogram, hrows, hm]
      · cases hmode : t.hasMode with
        | false => simp [plot_histogram_entry, plot_histogram, hrows, hmode]
        | true =>
          rcases hc with ha | hl
          · simp [plot_histogram_entry, plot_histogram, hrows, hmode, hbp, ha]
          · cases haff : t.hasAffinity with
            | false =>
              simp [plot_histogram_entry, plot_histogram, hrows, hmode, hbp, haff]
            | true =>
              simp [plot_histogram_entry, plot_histogram, hrows, hmode, hbp, haff, hl]
  refine ⟨?_, ?_⟩ <;> simp [scriptRun, hrun, hout]

theorem c7_fatal_reported_exit_zero_witness :
    4 ≤ (["plot_results.py", "results.csv", "plot.png", "-9.5"] : List String).length ∧
    ((none : Option Table) = none ∨
      ∃ t, (none : Option Table) = some t ∧ t.rows ≠ [] ∧
        (t.hasMode = false ∨
          (best_poses t.rows ≠ [] ∧ (t.hasAffinity = false ∨ t.hasLigandID = false)))) ∧
    ((scriptRun ["plot_results.py", "results.csv", "plot.png", "-9.5"]
        (some (-19/2)) none).2 = some .errorCaught ∧
      (scriptRun ["plot_results.py", "results.csv", "plot.png", "-9.5"]
        (some (-19/2)) none).1 = 0) :=
  ⟨by decide, Or.inl rfl,
    c7_fatal_reported_exit_zero _ (some (-19/2)) none (by decide) (Or.inl rfl)⟩

/-- C8 counterexample: invoking `plot_results.py` with only the input path and
the output path (threshold omitted, so `sys.argv` has three entries) is not
accepted: the script prints the usage message and exits with status 1. -/
theorem c8_threshold_required_counterexample :
    mainArgs ["plot_results.py", "results.csv", "histogram.png"] none = .usageExit ∧
    mainExit (mainArgs ["plot_results.py", "results.csv", "histogram.png"] none) = 1 :=
  ⟨rfl, rfl⟩

/-- C8 (amended): the script takes positional arguments input path, output path
and threshold, and the threshold is required: an invocation supplying only the
two paths is rejected with exit status 1, while any invocation supplying all
three proceeds to `plot_histogram` (a threshold that fails to parse as a float
falls back to -8.0 rather than aborting). -/
theorem c8_argv_surface (prog csv img thr : String) (rest : List String)
    (p : Option ℚ) :
    mainArgs [prog, csv, img] p = .usageExit ∧
    mainExit (mainArgs [prog, csv, img] p) = 1 ∧
    mainArgs (prog :: csv :: img :: thr :: rest) p = .run csv img (p.getD (-8)) ∧
    mainExit (mainArgs (prog :: csv :: img :: thr :: rest) p) = 0 := by
  have hlen : ¬ (prog :: csv :: img :: thr :: rest).length < 4 := by
    simp only [List.length_cons]
    omega
  have hrun : mainArgs (prog :: csv :: img :: thr :: rest) p
      = .run csv img (p.getD (-8)) := by
    rw [mainArgs, if_neg hlen]
    rfl
  exact ⟨rfl, rfl, hrun, by rw [hrun]; rfl⟩

/-- C9: when the third positional argument is present but `float()` raises
`ValueError` on it (modelled by `parsedThr = none`), the script does not fail:
it proceeds to `plot_histogram` with the default threshold -8.0. -/
theorem c9_unparseable_threshold_default (prog csv img thr : String)
    (rest : List String) :
    mainArgs (prog :: csv :: img :: thr :: rest) none = .run csv img (-8) ∧
    mainExit (mainArgs (prog :: csv :: img :: thr :: rest) none) = 0 := by
  have hlen : ¬ (prog :: csv :: img :: thr :: rest).length < 4 := by
    simp only [List.length_cons]
    omega
  have hrun : mainArgs (prog :: csv :: img :: thr :: rest) none = .run csv img (-8) := by
    rw [mainArgs, if_neg hlen]
    rfl
  exact ⟨hrun, by rw [hrun]; rfl⟩

/-- C10: a table with zero data rows is reported through the "no data" warning
path, which runs before any column access — so even a zero-row table missing
the required `Mode` or `Affinity` columns yields the non-fatal empty-input
outcome, never the caught-exception outcome. -/
theorem c10_zero_row_table_no_data (t : Table) (threshold : ℚ)
    (h : t.rows = []) :
    plot_histogram t threshold = .noDataWarning ∧
    plot_histogram t threshold ≠ .errorCaught := by
  constructor
  · rw [plot_histogram, if_pos h]
  · rw [plot_histogram, if_pos h]
    exact fun hcontra => Outcome.noConfusion hcontra

theorem c10_zero_row_table_no_data_witness :
    (Table.mk false false false []).rows = [] ∧
    (plot_histogram (Table.mk false false false []) (-8) = .noDataWarning ∧
      plot_histogram (Table.mk false false false []) (-8) ≠ .errorCaught) :=
  ⟨rfl, c10_zero_row_table_no_data _ (-8) rfl⟩
